import Mathlib

/-!
Verification of the openssl-async-job bridge (`src/lib/openssl-async-job/src/task.rs`):
a shallow embedding of `OpensslAsyncTask::poll_run`, the `start_job` trampoline,
and the surrounding protocol, over a scripted model of the native scheduler.

The native scheduler (`ffi::ASYNC_start_job`) and the wait context
(`AsyncWaitCtx::get_changed_fds`) are not part of the sources under review;
they are modelled from the spec as scripted oracles: the scheduler as a list
of status codes consumed one per native call, the wait context as a list of
fd diffs consumed one per query.
-/

namespace OpensslAsyncJob

/-- Raw file descriptor (`RawFd` / `c_int`). -/
abbrev Fd := Int

/-- Model of `std::io::Error` payloads. -/
abbrev IOErr := String

/-- Model of `anyhow::Error` payloads returned by `SyncOperation::run`. -/
abbrev OpErr := String

/-- The four native status codes of `ASYNC_start_job`
(`ASYNC_ERR`, `ASYNC_NO_JOBS`, `ASYNC_PAUSE`, `ASYNC_FINISH`). -/
inductive AsyncStatus where
  | err
  | noJobs
  | pause
  | finish
deriving DecidableEq, Repr

deriving instance DecidableEq for Except

/-- Result of one `poll_ready_fds` call (`Poll<io::Result<()>>`). -/
inductive PollReadyR where
  | pending
  | ready (r : Except IOErr Unit)
deriving DecidableEq, Repr

/-- `OpensslAsyncTaskError` from task.rs: `Openssl` (scheduling fault),
`Runtime` (io error from fd registration / readiness), `Operation`
(the wrapped operation itself failed). -/
inductive OpensslAsyncTaskError where
  | openssl
  | runtime (e : IOErr)
  | operation (e : OpErr)
deriving DecidableEq, Repr

/-- `std::task::Poll`. -/
inductive Poll (α : Type) where
  | ready (a : α)
  | pending
deriving DecidableEq, Repr

/-- Whether a poll result is `Pending`. -/
def Poll.isPending : Poll α → Bool
  | .pending => true
  | .ready _ => false

/-- Model of a value implementing `AsyncOperation` (task.rs lines 31-39).
`payload` and `runFn` embed `SyncOperation::run` (the new payload plus the
returned `anyhow::Result<()>`); `tracked` is the fd set currently registered
with the reactor; `trackFailSet` scripts which fds fail to register;
`readyScript` scripts the outcomes of successive `poll_ready_fds` calls.
`trackCalls`, `untrackCalls`, `runCount` and `readyObserved` are ghost
observation fields only (call counters, and the tracked set as seen at each
readiness query); no control flow reads them. -/
structure Operation (σ : Type) where
  payload : σ
  runFn : σ → σ × Except OpErr Unit
  tracked : List Fd
  trackFailSet : List Fd
  readyScript : List PollReadyR
  trackCalls : Nat
  untrackCalls : Nat
  runCount : Nat
  readyObserved : List (List Fd)

/-- `AsyncOperation::track_raw_fd`: registers an fd with the reactor, may fail. -/
def Operation.trackRawFd (op : Operation σ) (fd : Fd) : Except IOErr (Operation σ) :=
  if fd ∈ op.trackFailSet then
    .error "track failed"
  else
    .ok { op with tracked := op.tracked ++ [fd], trackCalls := op.trackCalls + 1 }

/-- `AsyncOperation::untrack_raw_fd`: deregisters an fd; cannot fail. -/
def Operation.untrackRawFd (op : Operation σ) (fd : Fd) : Operation σ :=
  { op with tracked := op.tracked.erase fd, untrackCalls := op.untrackCalls + 1 }

/-- `AsyncOperation::poll_ready_fds`: consumes the next scripted outcome
(an empty script reads as Pending) and records the tracked set it observed. -/
def Operation.pollReadyFds (op : Operation σ) : PollReadyR × Operation σ :=
  match op.readyScript with
  | [] => (.pending, { op with readyObserved := op.readyObserved ++ [op.tracked] })
  | h :: t =>
    (h, { op with readyScript := t, readyObserved := op.readyObserved ++ [op.tracked] })

/-- The `for fd in add { self.operation.track_raw_fd(fd)? }` loop of
`poll_run`: tracks fds left to right, stopping at the first failure and
returning the operation state reached so far together with the error. -/
def trackAll (op : Operation σ) : List Fd → Operation σ × Option IOErr
  | [] => (op, none)
  | fd :: rest =>
    match op.trackRawFd fd with
    | .error e => (op, some e)
    | .ok op1 => trackAll op1 rest

/-- The `for fd in del { self.operation.untrack_raw_fd(fd) }` loop of `poll_run`. -/
def untrackAll (op : Operation σ) (l : List Fd) : Operation σ :=
  l.foldl Operation.untrackRawFd op

/-- Modelled from the spec: `AsyncWaitCtx::get_changed_fds` (the wait
context lives outside the sources under review). The wait context is a list
of per-pause diffs; each query pops the next one, and an exhausted script
reports an empty delta ("the delta since the previous call"). -/
def popDiff : List (List Fd × List Fd) → (List Fd × List Fd) × List (List Fd × List Fd)
  | [] => (([], []), [])
  | d :: rest => (d, rest)

/-- `OpensslAsyncTask` (task.rs lines 51-56): the job handle (`none` models
a null `*mut ASYNC_JOB`), the wait context (its scripted diff stream), the
owned operation and the captured error slot `op_error`. -/
structure OpensslAsyncTask (σ : Type) where
  job : Option Unit
  waitCtx : List (List Fd × List Fd)
  operation : Operation σ
  opError : Except OpErr Unit

/-- `OpensslAsyncTask::new`: null job handle, a fresh wait context (whose
scripted diff stream is supplied by the environment), success in the slot. -/
def OpensslAsyncTask.new (operation : Operation σ)
    (waitCtx : List (List Fd × List Fd)) : OpensslAsyncTask σ :=
  { job := none, waitCtx := waitCtx, operation := operation, opError := .ok () }

/-- `OpensslAsyncTask::into_op`: recover the wrapped operation. -/
def OpensslAsyncTask.intoOp (t : OpensslAsyncTask σ) : Operation σ :=
  t.operation

/-- The `start_job::<T>` entry trampoline (task.rs lines 116-121): given the
task, runs the operation and stores the outcome in the captured error slot;
its native return value is the fixed bookkeeping status 0, not the result. -/
def startJob (t : OpensslAsyncTask σ) : OpensslAsyncTask σ :=
  let pr := t.operation.runFn t.operation.payload
  { t with
      operation := { t.operation with
                       payload := pr.1
                       runCount := t.operation.runCount + 1 }
      opError := pr.2 }

/-- Modelled from the spec: the native `ffi::ASYNC_start_job` call (the
scheduler itself is outside the sources under review). Each call consumes
the next scripted status. On Finished the trampoline has run the operation
to completion (writing the captured error slot once) and the native call
nulls the job handle; on Paused the job handle is live; Error and No-jobs
leave the task untouched and in particular never invoke the operation. -/
def asyncStartJob (t : OpensslAsyncTask σ) (sched : List AsyncStatus) :
    Option (AsyncStatus × OpensslAsyncTask σ × List AsyncStatus) :=
  match sched with
  | [] => none
  | s :: rest =>
    match s with
    | .err => some (.err, t, rest)
    | .noJobs => some (.noJobs, t, rest)
    | .pause => some (.pause, { t with job := some () }, rest)
    | .finish => some (.finish, { startJob t with job := none }, rest)

/-- Conversion of the taken slot to the future's output,
`r.map_err(OpensslAsyncTaskError::Operation)`. -/
def opErrToTask : Except OpErr Unit → Except OpensslAsyncTaskError Unit
  | .ok _ => .ok ()
  | .error e => .error (.operation e)

/-- Outcome of one `poll_run` body: the returned `Poll`, the task state left
behind, and whether `cx.waker().wake_by_ref()` was called. -/
structure PollOutcome (σ : Type) where
  result : Poll (Except OpensslAsyncTaskError Unit)
  task : OpensslAsyncTask σ
  selfWake : Bool

/-- The `loop { match r { ... } }` of `poll_run` (task.rs lines 88-112),
dispatching on the status `r` of the one native call made before the loop.
Note the faithful detail: the Paused arm, after a Ready readiness check,
loops back and re-matches the same `r` — the source does not issue another
native call inside the loop. `fuel` bounds the loop; `none` means the fuel
ran out. -/
def pollRunLoop (fuel : Nat) (r : AsyncStatus) (t : OpensslAsyncTask σ) :
    Option (PollOutcome σ) :=
  match fuel with
  | 0 => none
  | fuel + 1 =>
    match r with
    | .err => some { result := .ready (.error .openssl), task := t, selfWake := false }
    | .noJobs => some { result := .pending, task := t, selfWake := true }
    | .finish =>
      let res := t.opError
      some { result := .ready (opErrToTask res)
             task := { t with opError := .ok () }
             selfWake := false }
    | .pause =>
      let d := popDiff t.waitCtx
      let t1 := { t with waitCtx := d.2 }
      let ta := trackAll t1.operation d.1.1
      match ta.2 with
      | some e =>
        some { result := .ready (.error (.runtime e))
               task := { t1 with operation := ta.1 }
               selfWake := false }
      | none =>
        let op2 := untrackAll ta.1 d.1.2
        let pr := op2.pollReadyFds
        let t2 := { t1 with operation := pr.2 }
        match pr.1 with
        | .pending => some { result := .pending, task := t2, selfWake := false }
        | .ready (.error e) =>
          some { result := .ready (.error (.runtime e)), task := t2, selfWake := false }
        | .ready (.ok _) => pollRunLoop fuel r t2

/-- One invocation of `OpensslAsyncTask::poll_run`: a single native
start-or-resume call, then the status loop. Also returns the remaining
scheduler script (what the status loop did not consume). -/
def pollOnce (fuel : Nat) (t : OpensslAsyncTask σ) (sched : List AsyncStatus) :
    Option (PollOutcome σ × List AsyncStatus) :=
  match asyncStartJob t sched with
  | none => none
  | some (r, t1, sched1) =>
    match pollRunLoop fuel r t1 with
    | none => none
    | some o => some (o, sched1)

/-- Awaiting the future: poll repeatedly (as the `Future` impl does via
`poll_run`) until the task resolves, counting polls. Returns the number of
polls, the resolution value, the final task and the unconsumed script. -/
def drive (polls fuel : Nat) (t : OpensslAsyncTask σ) (sched : List AsyncStatus) :
    Option (Nat × Except OpensslAsyncTaskError Unit × OpensslAsyncTask σ × List AsyncStatus) :=
  match polls with
  | 0 => none
  | n + 1 =>
    match pollOnce fuel t sched with
    | none => none
    | some (o, sched1) =>
      match o.result with
      | .ready r => some (1, r, o.task, sched1)
      | .pending =>
        match drive n fuel o.task sched1 with
        | none => none
        | some (c, r, tf, sf) => some (c + 1, r, tf, sf)

/-- Result of dropping the task's future. -/
structure DropResult (σ : Type) where
  jobReleased : Bool
  operation : Operation σ

/-- Modelled from the spec: cancellation teardown on drop. task.rs itself
declares no `Drop`; the teardown is carried by the drop glue of the task's
fields (the wait context and the reactor adapter), whose definitions are
outside the sources under review. Per the spec: while the job handle is
non-null, dropping releases the native job and untracks every fd currently
registered with the operation; dropping while Idle or Finished (null job
handle) performs no teardown. -/
def dropTask (t : OpensslAsyncTask σ) : DropResult σ :=
  match t.job with
  | none => { jobReleased := false, operation := t.operation }
  | some _ =>
    { jobReleased := true, operation := untrackAll t.operation t.operation.tracked }

/-! Concrete operations and tasks used as test inputs for the claims. -/

/-- A trivial unit operation with a given readiness script. -/
def simpleOp (script : List PollReadyR) : Operation Unit :=
  { payload := ()
    runFn := fun s => (s, Except.ok ())
    tracked := []
    trackFailSet := []
    readyScript := script
    trackCalls := 0
    untrackCalls := 0
    runCount := 0
    readyObserved := [] }

/-- Task whose operation reports Ready immediately at the first pause. -/
def c1Task : OpensslAsyncTask Unit :=
  OpensslAsyncTask.new (simpleOp [.ready (.ok ())]) [([], [])]

/-- Family of tasks mid-pause whose operation reports Ready `n` times in a
row, with ghost observation list `obs`. -/
def c1TaskN (n : Nat) (obs : List (List Fd)) : OpensslAsyncTask Unit :=
  { job := some ()
    waitCtx := []
    operation := { simpleOp (List.replicate n (.ready (.ok ()))) with readyObserved := obs }
    opError := .ok () }

/-- Operation state as of a second pause: fds 3 and 5 already tracked,
readiness pending. -/
def c2wOp : Operation Unit :=
  { simpleOp [.pending] with tracked := [3, 5], trackCalls := 2, readyObserved := [[3, 5]] }

/-- `c2wOp` after tracking fd 7. -/
def c2wOp1 : Operation Unit :=
  { c2wOp with tracked := [3, 5, 7], trackCalls := 3 }

/-- Mid-run task at its second pause, this pause reporting added {7},
removed {3}. -/
def c2wTask : OpensslAsyncTask Unit :=
  { job := some (), waitCtx := [([7], [3])], operation := c2wOp, opError := .ok () }

/-- Fresh task whose first pause reports added {3,5} and whose readiness
stays pending (so the poll parks mid-pause). -/
def c4PauseTask : OpensslAsyncTask Unit :=
  OpensslAsyncTask.new (simpleOp [.pending]) [([3, 5], [])]

/-- A task parked mid-pause with fds 3 and 5 tracked. -/
def c4MidTask : OpensslAsyncTask Unit :=
  { job := some ()
    waitCtx := []
    operation := { simpleOp [] with tracked := [3, 5], trackCalls := 2 }
    opError := .ok () }

/-- The length-computing operation of the spec scenario: payload is
(input, result) and `run` sets result to the input's length; the input
has 37 bytes. -/
def lenOp : Operation (List Nat × Nat) :=
  { payload := (List.replicate 37 0, 0)
    runFn := fun s => ((s.1, s.1.length), Except.ok ())
    tracked := []
    trackFailSet := []
    readyScript := []
    trackCalls := 0
    untrackCalls := 0
    runCount := 0
    readyObserved := [] }

/-- An operation whose synchronous run fails with a fixed error. -/
def failOp : Operation Unit :=
  { simpleOp [] with runFn := fun s => (s, Except.error "boom") }

/-- An operation for which registering fd 5 with the reactor fails. -/
def c9wOp : Operation Unit :=
  { simpleOp [] with trackFailSet := [5] }

/-- Task whose next pause reports added {5}, where tracking fd 5 fails. -/
def c9wTask : OpensslAsyncTask Unit :=
  { job := some (), waitCtx := [([5], [])], operation := c9wOp, opError := .ok () }

/-! Helper lemmas about the fd-reconciliation loops. -/

theorem trackAll_ok_fields {σ : Type} :
    ∀ (l : List Fd) (op op1 : Operation σ), trackAll op l = (op1, none) →
      op1.tracked = op.tracked ++ l ∧ op1.readyObserved = op.readyObserved ∧
        op1.readyScript = op.readyScript := by
  intro l
  induction l with
  | nil =>
    intro op op1 h
    simp only [trackAll, Prod.mk.injEq] at h
    rw [← h.1]
    simp
  | cons fd rest ih =>
    intro op op1 h
    simp only [trackAll] at h
    rcases hm : op.trackRawFd fd with e | opx
    · rw [hm] at h
      simp at h
    · rw [hm] at h
      obtain ⟨h1, h2, h3⟩ := ih opx op1 h
      have hx : opx.tracked = op.tracked ++ [fd] ∧ opx.readyObserved = op.readyObserved ∧
          opx.readyScript = op.readyScript := by
        unfold Operation.trackRawFd at hm
        by_cases hf : fd ∈ op.trackFailSet
        · simp [hf] at hm
        · simp only [hf, if_false, Except.ok.injEq] at hm
          rw [← hm]
          exact ⟨rfl, rfl, rfl⟩
      rw [h1, hx.1, h2, hx.2.1, h3, hx.2.2]
      simp

theorem untrackAll_fields {σ : Type} :
    ∀ (l : List Fd) (op : Operation σ),
      (untrackAll op l).tracked = List.foldl List.erase op.tracked l ∧
        (untrackAll op l).readyObserved = op.readyObserved ∧
        (untrackAll op l).readyScript = op.readyScript ∧
        (untrackAll op l).untrackCalls = op.untrackCalls + l.length := by
  intro l
  induction l with
  | nil => intro op; simp [untrackAll]
  | cons fd rest ih =>
    intro op
    have hstep : untrackAll op (fd :: rest) = untrackAll (op.untrackRawFd fd) rest := rfl
    rw [hstep]
    obtain ⟨h1, h2, h3, h4⟩ := ih (op.untrackRawFd fd)
    refine ⟨?_, ?_, ?_, ?_⟩
    · rw [h1]; rfl
    · rw [h2]; rfl
    · rw [h3]; rfl
    · rw [h4]
      show op.untrackCalls + 1 + rest.length = op.untrackCalls + (rest.length + 1)
      omega

theorem foldl_erase_self : ∀ (l : List Fd), List.foldl List.erase l l = [] := by
  intro l
  induction l with
  | nil => rfl
  | cons a l ih =>
    show List.foldl List.erase ((a :: l).erase a) l = []
    rw [List.erase_cons_head]
    exact ih

/-! Claim theorems. -/

/-- C1: the claim says that a Paused status whose readiness check is
immediately Ready is followed by a fresh native start-or-resume call within
the same poll invocation. The code violates this: `ASYNC_start_job` is
called once before the status loop, and the Ready branch loops back on the
stale Paused status. At the failing input (scheduler script: Paused then
Finished; readiness immediately Ready) the poll consumes only the one Paused
status, leaves the Finished status unconsumed and returns Pending instead of
resuming; and a readiness check that stays Ready for `n` rounds spins the
loop for all `n` without ever returning (fuel `n` is exhausted). -/
theorem c1_pause_ready_no_fresh_resume :
    (pollOnce 5 c1Task [.pause, .finish]).map
        (fun x => (x.1.result.isPending, x.2)) = some (true, [.finish]) ∧
    ∀ (n : Nat) (obs : List (List Fd)), pollRunLoop n .pause (c1TaskN n obs) = none := by
  constructor
  · rfl
  · intro n
    induction n with
    | zero => intro obs; rfl
    | succ n ih =>
      intro obs
      simp only [pollRunLoop, c1TaskN, simpleOp, popDiff, trackAll, Operation.trackRawFd,
        untrackAll, Operation.pollReadyFds, List.replicate_succ, List.foldl]
      exact ih (obs ++ [[]])

/-- C2: for every Paused status, the fds added by that pause's wait-context
diff are tracked and the removed ones untracked before readiness is queried
for that pause, and the tracked set observed at the readiness check is
exactly the incoming tracked set with this pause's diff applied (tracks,
then untracks) — no carry-over from earlier pauses. -/
theorem c2_pause_reconciliation (σ : Type) (t : OpensslAsyncTask σ) (add del : List Fd)
    (ctx1 : List (List Fd × List Fd)) (op1 : Operation σ) (s : List PollReadyR) (fuel : Nat)
    (hctx : t.waitCtx = (add, del) :: ctx1)
    (htrack : trackAll t.operation add = (op1, none))
    (hready : (untrackAll op1 del).readyScript = PollReadyR.pending :: s) :
    (pollRunLoop (fuel + 1) .pause t).map (fun o =>
        (o.result.isPending, o.task.operation.readyObserved, o.task.operation.tracked,
          o.task.waitCtx, o.selfWake)) =
      some (true,
        t.operation.readyObserved ++ [List.foldl List.erase (t.operation.tracked ++ add) del],
        List.foldl List.erase (t.operation.tracked ++ add) del, ctx1, false) := by
  obtain ⟨ht1, ht2, ht3⟩ := trackAll_ok_fields add t.operation op1 htrack
  obtain ⟨hu1, hu2, hu3, hu4⟩ := untrackAll_fields del op1
  simp only [pollRunLoop, hctx, popDiff, htrack, Operation.pollReadyFds, hready]
  simp only [hu1, hu2, ht1, ht2, Option.map_some']
  simp [Poll.isPending]

/-- Witness for C2: a task at its second pause with {3,5} tracked and this
pause reporting added {7}, removed {3}: the readiness check observes exactly
{5,7}, recorded after the first pause's observation of {3,5}. -/
theorem c2_pause_reconciliation_witness :
    (pollRunLoop 1 .pause c2wTask).map (fun o =>
        (o.result.isPending, o.task.operation.readyObserved, o.task.operation.tracked,
          o.task.waitCtx, o.selfWake)) =
      some (true, [[3, 5], [5, 7]], [5, 7], [], false) :=
  c2_pause_reconciliation Unit c2wTask [7] [3] [] c2wOp1 [] 0 rfl rfl rfl

/-- C3: a fresh task's captured error slot starts as success; and when a
poll receives a Finished status, the task takes the slot (the slot is left
holding the success sentinel afterwards), the job handle is null, the
trampoline has run the operation exactly once, and the future resolves with
the taken result. -/
theorem c3_finish_takes_slot_once (σ : Type) (t : OpensslAsyncTask σ)
    (rest : List AsyncStatus) (f : Nat) :
    (OpensslAsyncTask.new t.operation t.waitCtx).opError = Except.ok () ∧
    (pollOnce (f + 1) t (.finish :: rest)).map (fun x =>
        (x.1.result, x.1.task.job.isSome, x.1.task.opError,
          x.1.task.operation.runCount, x.2)) =
      some (Poll.ready (opErrToTask (t.operation.runFn t.operation.payload).2), false,
        Except.ok (), t.operation.runCount + 1, rest) :=
  ⟨rfl, rfl⟩

/-- C4: dropping the future while the job handle is non-null releases the
native job and untracks every fd currently registered (the untrack count
grows by exactly the number of tracked fds, leaving none tracked); dropping
with a null job handle (Idle or Finished) performs no teardown. Driving a
fresh task into a pause that tracks {3,5} and then dropping it ends with
equal track and untrack counts (2 and 2) and an empty tracked set. -/
theorem c4_drop_teardown (σ : Type) (t : OpensslAsyncTask σ) :
    (t.job.isSome = true →
      (dropTask t).jobReleased = true ∧ (dropTask t).operation.tracked = [] ∧
        (dropTask t).operation.untrackCalls =
          t.operation.untrackCalls + t.operation.tracked.length) ∧
    (t.job = none → dropTask t = { jobReleased := false, operation := t.operation }) ∧
    (pollOnce 3 c4PauseTask [.pause]).map (fun x =>
        ((dropTask x.1.task).jobReleased, (dropTask x.1.task).operation.tracked,
          (dropTask x.1.task).operation.trackCalls,
          (dropTask x.1.task).operation.untrackCalls)) =
      some (true, [], 2, 2) := by
  refine ⟨?_, ?_, ?_⟩
  · intro hj
    rcases hjob : t.job with _ | u
    · rw [hjob] at hj
      simp at hj
    · have hd : dropTask t =
          { jobReleased := true, operation := untrackAll t.operation t.operation.tracked } := by
        unfold dropTask
        rw [hjob]
      obtain ⟨h1, h2, h3, h4⟩ := untrackAll_fields t.operation.tracked t.operation
      rw [hd]
      exact ⟨rfl, by rw [h1]; exact foldl_erase_self _, by rw [h4]⟩
  · intro hj
    unfold dropTask
    rw [hj]
  · rfl

/-- Witness for C4: dropping a task parked mid-pause with fds {3,5} tracked
(track count 2) releases the job and brings the untrack count to 2. -/
theorem c4_drop_teardown_witness :
    c4MidTask.job.isSome = true ∧
    ((dropTask c4MidTask).jobReleased = true ∧ (dropTask c4MidTask).operation.tracked = [] ∧
      (dropTask c4MidTask).operation.untrackCalls =
        c4MidTask.operation.untrackCalls + c4MidTask.operation.tracked.length) :=
  ⟨rfl, (c4_drop_teardown Unit c4MidTask).1 rfl⟩

theorem drive_noJobs_aux (σ : Type) (t : OpensslAsyncTask σ) (f N : Nat)
    (rest : List AsyncStatus) :
    drive (N + 1) (f + 1) t (List.replicate N .noJobs ++ .finish :: rest) =
      some (N + 1, opErrToTask (t.operation.runFn t.operation.payload).2,
        { startJob t with job := none, opError := .ok () }, rest) := by
  induction N with
  | zero => rfl
  | succ n ih =>
    have h1 : drive (n + 1 + 1) (f + 1) t (List.replicate (n + 1) .noJobs ++ .finish :: rest) =
        match drive (n + 1) (f + 1) t (List.replicate n .noJobs ++ .finish :: rest) with
        | none => none
        | some (c, r, tf, sf) => some (c + 1, r, tf, sf) := rfl
    rw [h1, ih]

/-- C5: a No-slot status wakes the task's own waker and returns Pending with
the task untouched, and is never surfaced as a failure: a scheduler script of
exactly N No-slot statuses before Finished resolves the task at poll N+1 with
the operation's own outcome — no exhaustion error ever reaches the caller. -/
theorem c5_noslot_retry (σ : Type) (t : OpensslAsyncTask σ) (N f : Nat)
    (rest : List AsyncStatus) :
    pollOnce (f + 1) t (.noJobs :: rest) =
      some ({ result := .pending, task := t, selfWake := true }, rest) ∧
    (drive (N + 1) (f + 1) t (List.replicate N .noJobs ++ .finish :: rest)).map
        (fun x => (x.1, x.2.1)) =
      some (N + 1, opErrToTask (t.operation.runFn t.operation.payload).2) := by
  refine ⟨rfl, ?_⟩
  rw [drive_noJobs_aux]
  rfl

/-- C6: for every operation whose synchronous run succeeds, awaiting the
task resolves to success and the operation recovered via `intoOp` holds
exactly the payload that the run produced. -/
theorem c6_success_result (σ : Type) (op : Operation σ) (ctx : List (List Fd × List Fd))
    (f : Nat) (rest : List AsyncStatus)
    (h : (op.runFn op.payload).2 = Except.ok ()) :
    (drive 1 (f + 1) (OpensslAsyncTask.new op ctx) (.finish :: rest)).map (fun x =>
        (x.1, x.2.1, (OpensslAsyncTask.intoOp x.2.2.1).payload)) =
      some (1, Except.ok (), (op.runFn op.payload).1) := by
  have h1 : drive 1 (f + 1) (OpensslAsyncTask.new op ctx) (.finish :: rest) =
      some (1, opErrToTask (op.runFn op.payload).2,
        { startJob (OpensslAsyncTask.new op ctx) with job := none, opError := .ok () },
        rest) := rfl
  rw [h1, h]
  rfl

/-- Witness for C6: the operation computing result = length(input) on a
37-byte input resolves successfully and the recovered payload's result
is 37. -/
theorem c6_success_result_witness :
    (lenOp.runFn lenOp.payload).2 = Except.ok () ∧
    (drive 1 1 (OpensslAsyncTask.new lenOp []) [.finish]).map (fun x =>
        (x.1, x.2.1, (OpensslAsyncTask.intoOp x.2.2.1).payload)) =
      some (1, Except.ok (), (List.replicate 37 0, 37)) :=
  ⟨rfl, c6_success_result (List Nat × Nat) lenOp [] 0 [] rfl⟩

/-- C7: for every operation whose run returns an error, the task resolves
to an Operation failure wrapping exactly that error — never a scheduling
fault. -/
theorem c7_operation_failure (σ : Type) (op : Operation σ) (ctx : List (List Fd × List Fd))
    (f : Nat) (rest : List AsyncStatus) (e : OpErr)
    (h : (op.runFn op.payload).2 = Except.error e) :
    (drive 1 (f + 1) (OpensslAsyncTask.new op ctx) (.finish :: rest)).map
        (fun x => (x.1, x.2.1)) =
      some (1, Except.error (OpensslAsyncTaskError.operation e)) := by
  have h1 : drive 1 (f + 1) (OpensslAsyncTask.new op ctx) (.finish :: rest) =
      some (1, opErrToTask (op.runFn op.payload).2,
        { startJob (OpensslAsyncTask.new op ctx) with job := none, opError := .ok () },
        rest) := rfl
  rw [h1, h]
  rfl

/-- Witness for C7: an operation failing with "boom" resolves the task to
an Operation failure wrapping exactly "boom". -/
theorem c7_operation_failure_witness :
    (failOp.runFn failOp.payload).2 = Except.error "boom" ∧
    (drive 1 1 (OpensslAsyncTask.new failOp []) [.finish]).map (fun x => (x.1, x.2.1)) =
      some (1, Except.error (OpensslAsyncTaskError.operation "boom")) :=
  ⟨rfl, c7_operation_failure Unit failOp [] 0 [] "boom" rfl⟩

/-- C8: an Error status from the native call resolves the task immediately
(on that very poll, whatever the poll budget) with the Openssl scheduling
fault, leaving the task — its operation and in particular its run count —
completely untouched: the operation's run is never invoked. -/
theorem c8_scheduler_error_fault (σ : Type) (t : OpensslAsyncTask σ) (f p : Nat)
    (rest : List AsyncStatus) :
    pollOnce (f + 1) t (.err :: rest) =
      some ({ result := .ready (.error .openssl), task := t, selfWake := false }, rest) ∧
    drive (p + 1) (f + 1) t (.err :: rest) =
      some (1, .error .openssl, t, rest) :=
  ⟨rfl, rfl⟩

/-- C9: if tracking a descriptor with the reactor fails during a pause's fd
reconciliation, the poll resolves the task fatally with the Runtime
(registration failure) error carrying that io error — it is surfaced, not
retried. -/
theorem c9_track_failure_fatal (σ : Type) (t : OpensslAsyncTask σ) (add del : List Fd)
    (ctx1 : List (List Fd × List Fd)) (op1 : Operation σ) (e : IOErr) (fuel : Nat)
    (hctx : t.waitCtx = (add, del) :: ctx1)
    (htrack : trackAll t.operation add = (op1, some e)) :
    pollRunLoop (fuel + 1) .pause t =
      some { result := .ready (.error (.runtime e))
             task := { t with waitCtx := ctx1, operation := op1 }
             selfWake := false } := by
  simp only [pollRunLoop, hctx, popDiff, htrack]

/-- Witness for C9: a pause reporting added {5} where registering fd 5
fails resolves the task with the Runtime registration failure. -/
theorem c9_track_failure_fatal_witness :
    pollRunLoop 1 .pause c9wTask =
      some { result := .ready (.error (.runtime "track failed"))
             task := { c9wTask with waitCtx := [], operation := c9wOp }
             selfWake := false } :=
  c9_track_failure_fatal Unit c9wTask [5] [] [] c9wOp "track failed" 0 rfl rfl

end OpensslAsyncJob
